import Mathlib

set_option maxRecDepth 100000

/-!
Shallow embedding of the contract-preview generator of
`src/components/tokens/TokenBuilder.tsx` (Cap-Table-Management-v3):
the `generateContractPreview` function, the tranche-summary row, the
`saveToken` validation gate and the building-block toggle, together
with theorems checking the specification's claims against them.
-/

namespace CapTable

/-- A tranche row of the token form: `{id, name, value, interestRate}`.
`value` is entered through `parseInt` and `interestRate` through
`parseFloat`; we model the former as an integer and the latter as a
rational number. -/
structure Tranche where
  id : Nat
  name : String
  value : Int
  interestRate : Rat
deriving DecidableEq

/-- The three building-block arrays of the token form. -/
structure TokenBlocks where
  compliance : List String
  features : List String
  governance : List String
deriving DecidableEq

/-- The `metadata` object of the token form.  An empty `issuanceDate` or
`maturityDate` string is JavaScript-falsy and plays the role of an absent
date. -/
structure TokenMetadata where
  description : String
  category : String
  product : String
  issuanceDate : String
  maturityDate : String
  tranches : List Tranche
  whitelistEnabled : Bool
  jurisdictionRestrictions : List String
  conversionRate : Rat
deriving DecidableEq

/-- The token form state driving the generator: name, symbol, decimals,
standard, total supply, the three block sets and the metadata object. -/
structure TokenForm where
  name : String
  symbol : String
  decimals : Nat
  standard : String
  totalSupply : Int
  blocks : TokenBlocks
  metadata : TokenMetadata
deriving DecidableEq

/-- The `TOKEN_STANDARDS` constant: the standards offered in the builder
UI, as `(value, label)` pairs. -/
def TOKEN_STANDARDS : List (String × String) :=
  [("ERC-20", "ERC-20 (Fungible Token)"),
   ("ERC-721", "ERC-721 (Non-Fungible Token)"),
   ("ERC-1155", "ERC-1155 (Multi Token)"),
   ("ERC-1400", "ERC-1400 (Security Token)"),
   ("ERC-3525", "ERC-3525 (Semi-Fungible Token)"),
   ("ERC-4626", "ERC-4626 (Tokenized Vault)")]

/-- The `value` column of `TOKEN_STANDARDS`. -/
def tokenStandardValues : List String :=
  TOKEN_STANDARDS.map Prod.fst

/-- JavaScript whitespace: the character class `\s` of the regular
expression `/\s+/g` applied to the token name. -/
def isJsWhitespace (c : Char) : Bool :=
  c == ' ' || c == '\t' || c == '\n' || c == '\r' ||
  c == Char.ofNat 11 || c == Char.ofNat 12 || c == Char.ofNat 160 ||
  c == Char.ofNat 5760 ||
  (Char.ofNat 8192 ≤ c && c ≤ Char.ofNat 8202) ||
  c == Char.ofNat 8232 || c == Char.ofNat 8233 || c == Char.ofNat 8239 ||
  c == Char.ofNat 8287 || c == Char.ofNat 12288 || c == Char.ofNat 65279

/-- The identifier sanitisation the generator applies to the token name:
`name.replace(/\s+/g, "")`, i.e. every whitespace character is deleted
and all other characters are kept in order. -/
def removeWhitespace (s : String) : String :=
  String.mk (s.data.filter (fun c => !(isJsWhitespace c)))

/-- `Array.prototype.join(sep)` on a list of strings. -/
def joinWith (sep : String) : List String → String
  | [] => ""
  | [x] => x
  | x :: y :: xs => x ++ sep ++ joinWith sep (y :: xs)

/-- Rendering of a JavaScript number into generated text.  Integral values
print as their integer numeral, exactly as JavaScript prints them; a
non-integral value is printed as `num/den` as a stand-in (decimal printing
of doubles is outside this model, and no theorem below renders a
non-integral value into text). -/
def ratStr (q : Rat) : String :=
  if q.den = 1 then toString q.num
  else toString q.num ++ ("/") ++ toString q.den

/-- Digit grouping on a little-endian digit list: a comma after every
three digits. -/
def group3 : List Char → List Char
  | a :: b :: c :: d :: rest => a :: b :: c :: ',' :: group3 (d :: rest)
  | l => l

/-- `Number.prototype.toLocaleString()` for integers in the en-US default
locale: thousands separated by commas. -/
def jsLocaleString (n : Int) : String :=
  (if n < 0 then ("-") else ("")) ++
    String.mk (group3 (toString n.natAbs).data.reverse).reverse

/-- Days between 1970-01-01 and the civil date `y-m-d` in the proleptic
Gregorian calendar (the standard days-from-civil computation).  The form's
date inputs only produce years well after 1970. -/
def daysFromCivil (y m d : Int) : Int :=
  let y2 : Int := if m ≤ 2 then y - 1 else y
  let era : Int := (if 0 ≤ y2 then y2 else y2 - 399) / 400
  let yoe : Int := y2 - era * 400
  let mp : Int := (m + 9) % 12
  let doy : Int := (153 * mp + 2) / 5 + d - 1
  let doe : Int := yoe * 365 + yoe / 4 - yoe / 100 + doy
  era * 146097 + doe - 719468

/-- The value of `new Date(s).getTime() / 1000` for a date string of the
form `YYYY-MM-DD` (the only shape the form's date inputs produce): seconds
since the Unix epoch at UTC midnight.  A string that does not parse is
mapped to `0` (JavaScript would produce `NaN`; no claim exercises that
case). -/
def dateToEpochSeconds (s : String) : Int :=
  match (s.splitOn ("-")).map String.toNat? with
  | [some y, some m, some d] => 86400 * daysFromCivil (y : Int) (m : Int) (d : Int)
  | _ => 0

/-- Header of the `standard === "ERC-20"` branch: license, pragma, imports,
contract declaration and constructor. -/
def erc20Header (f : TokenForm) : String :=
  "// SPDX-License-Identifier: MIT\n"
  ++ "pragma solidity ^0.8.0;\n"
  ++ "\n"
  ++ "import \"@openzeppelin/contracts/token/ERC20/ERC20.sol\";\n"
  ++ "import \"@openzeppelin/contracts/access/Ownable.sol\";\n"
  ++ "\n"
  ++ "contract " ++ removeWhitespace f.name ++ " is ERC20, Ownable \x7b\n"
  ++ "    constructor() ERC20(\"" ++ f.name ++ "\", \"" ++ f.symbol ++ "\") \x7b\n"
  ++ "        // Initial setup\n"
  ++ "        _mint(msg.sender, " ++ toString f.totalSupply ++ " * 10**"
  ++ toString f.decimals ++ ");\n"
  ++ "    \x7d\n"

/-- The KYC fragment, appended when `blocks.compliance.includes("KYC")`. -/
def erc20KycFragment : String :=
  "\n"
  ++ "    // KYC Implementation\n"
  ++ "    mapping(address => bool) private _kycApproved;\n"
  ++ "    \n"
  ++ "    function setKycStatus(address account, bool status) external onlyOwner \x7b\n"
  ++ "        _kycApproved[account] = status;\n"
  ++ "    \x7d\n"
  ++ "    \n"
  ++ "    function _beforeTokenTransfer(address from, address to, uint256 amount) internal override \x7b\n"
  ++ "        super._beforeTokenTransfer(from, to, amount);\n"
  ++ "        require(from == address(0) || _kycApproved[from], \"KYC not approved for sender\");\n"
  ++ "        require(to == address(0) || _kycApproved[to], \"KYC not approved for recipient\");\n"
  ++ "    \x7d\n"

/-- The dividend fragment, appended when
`blocks.features.includes("Dividends")`. -/
def erc20DividendsFragment : String :=
  "\n"
  ++ "    // Dividend Distribution\n"
  ++ "    function distributeTokenDividends(uint256 amount) external onlyOwner \x7b\n"
  ++ "        // Dividend distribution logic\n"
  ++ "    \x7d\n"

/-- The `standard === "ERC-20"` branch of `generateContractPreview`. -/
def erc20Preview (f : TokenForm) : String :=
  erc20Header f
  ++ (if ("KYC") ∈ f.blocks.compliance then erc20KycFragment else "")
  ++ (if ("Dividends") ∈ f.blocks.features then erc20DividendsFragment else "")
  ++ "\x7d"

/-- Header of the `standard === "ERC-1400"` branch: the ERC-20 header plus
the security-token implementation comment. -/
def erc1400Header (f : TokenForm) : String :=
  "// SPDX-License-Identifier: MIT\n"
  ++ "pragma solidity ^0.8.0;\n"
  ++ "\n"
  ++ "import \"@openzeppelin/contracts/token/ERC20/ERC20.sol\";\n"
  ++ "import \"@openzeppelin/contracts/access/Ownable.sol\";\n"
  ++ "\n"
  ++ "contract " ++ removeWhitespace f.name ++ " is ERC20, Ownable \x7b\n"
  ++ "    // ERC-1400 Security Token Implementation\n"
  ++ "    constructor() ERC20(\"" ++ f.name ++ "\", \"" ++ f.symbol ++ "\") \x7b\n"
  ++ "        // Initial setup\n"
  ++ "        _mint(msg.sender, " ++ toString f.totalSupply ++ " * 10**"
  ++ toString f.decimals ++ ");\n"
  ++ "    \x7d\n"

/-- Compliance-controls fragment of the ERC-1400 branch, appended when
`blocks.compliance.length > 0`; its whitelist flag line depends on
`metadata.whitelistEnabled`. -/
def erc1400ComplianceFragment (whitelistEnabled : Bool) : String :=
  "\n"
  ++ "    // Compliance Controls\n"
  ++ "    mapping(address => bool) private _whitelisted;\n"
  ++ "    "
  ++ (if whitelistEnabled then "bool private _whitelistEnabled = true;"
      else "bool private _whitelistEnabled = false;") ++ "\n"
  ++ "    \n"
  ++ "    function setWhitelistStatus(address account, bool status) external onlyOwner \x7b\n"
  ++ "        _whitelisted[account] = status;\n"
  ++ "    \x7d\n"
  ++ "    \n"
  ++ "    function setWhitelistEnabled(bool enabled) external onlyOwner \x7b\n"
  ++ "        _whitelistEnabled = enabled;\n"
  ++ "    \x7d\n"
  ++ "    \n"
  ++ "    function _beforeTokenTransfer(address from, address to, uint256 amount) internal override \x7b\n"
  ++ "        super._beforeTokenTransfer(from, to, amount);\n"
  ++ "        if (_whitelistEnabled) \x7b\n"
  ++ "            require(from == address(0) || _whitelisted[from], \"Sender not whitelisted\");\n"
  ++ "            require(to == address(0) || _whitelisted[to], \"Recipient not whitelisted\");\n"
  ++ "        \x7d\n"
  ++ "    \x7d\n"

/-- One entry of the jurisdiction-restriction initializer list. -/
def renderJurisdictionSetter (j : String) : String :=
  "_restrictedJurisdictions[\"" ++ j ++ "\"] = true;"

/-- Jurisdiction-restrictions fragment of the ERC-1400 branch, appended
when `metadata.jurisdictionRestrictions` is non-empty.  Note that its
guard reads the metadata, not the building-block sets. -/
def jurisdictionFragment (js : List String) : String :=
  "\n"
  ++ "    // Jurisdiction Restrictions\n"
  ++ "    mapping(string => bool) private _restrictedJurisdictions;\n"
  ++ "    \n"
  ++ "    constructor() \x7b\n"
  ++ "        " ++ joinWith ("\n        ") (js.map renderJurisdictionSetter) ++ "\n"
  ++ "    \x7d\n"
  ++ "    \n"
  ++ "    function setJurisdictionRestriction(string memory jurisdiction, bool restricted) external onlyOwner \x7b\n"
  ++ "        _restrictedJurisdictions[jurisdiction] = restricted;\n"
  ++ "    \x7d\n"
  ++ "    \n"
  ++ "    function isJurisdictionRestricted(string memory jurisdiction) public view returns (bool) \x7b\n"
  ++ "        return _restrictedJurisdictions[jurisdiction];\n"
  ++ "    \x7d\n"

/-- The `standard === "ERC-1400"` branch of `generateContractPreview`. -/
def erc1400Preview (f : TokenForm) : String :=
  erc1400Header f
  ++ (if f.blocks.compliance.length > 0 then
        erc1400ComplianceFragment f.metadata.whitelistEnabled
      else "")
  ++ (if f.metadata.jurisdictionRestrictions.length > 0 then
        jurisdictionFragment f.metadata.jurisdictionRestrictions
      else "")
  ++ "\x7d"

/-- The basis-points value the source renders into a tranche statement:
`tranche.interestRate * 100`, with no rounding applied. -/
def interestRateTimes100 (r : Rat) : Rat := r * 100

/-- One tranche-initialisation statement of the ERC-3525 constructor. -/
def renderTrancheStmt (t : Tranche) : String :=
  "        _createTranche(" ++ toString t.id ++ ", \"" ++ t.name ++ "\", "
  ++ toString t.value ++ ", " ++ ratStr (interestRateTimes100 t.interestRate) ++ ");"

/-- The joined tranche-initialisation block: one statement per tranche of
the input list, joined over newlines, in list order. -/
def trancheInitSection (ts : List Tranche) : String :=
  joinWith ("\n") (ts.map renderTrancheStmt)

/-- The ERC-3525 header up to (and including) the
`// Initialize tranches` line, after which the tranche statements are
spliced in. -/
def erc3525HeaderPre (f : TokenForm) : String :=
  "// SPDX-License-Identifier: MIT\n"
  ++ "pragma solidity ^0.8.0;\n"
  ++ "\n"
  ++ "import \"@openzeppelin/contracts/token/ERC721/extensions/ERC721Enumerable.sol\";\n"
  ++ "import \"@openzeppelin/contracts/access/Ownable.sol\";\n"
  ++ "\n"
  ++ "contract " ++ removeWhitespace f.name ++ " is ERC721Enumerable, Ownable \x7b\n"
  ++ "    // ERC-3525 Semi-Fungible Token Implementation for Structured Products\n"
  ++ "    \n"
  ++ "    // Token details\n"
  ++ "    string private _name = \"" ++ f.name ++ "\";\n"
  ++ "    string private _symbol = \"" ++ f.symbol ++ "\";\n"
  ++ "    uint8 private _decimals = " ++ toString f.decimals ++ ";\n"
  ++ "    uint256 private _totalSupply = " ++ toString f.totalSupply ++ ";\n"
  ++ "    \n"
  ++ "    // Tranche/Slot structure\n"
  ++ "    struct Tranche \x7b\n"
  ++ "        uint256 slotId;\n"
  ++ "        string name;\n"
  ++ "        uint256 value;\n"
  ++ "        uint256 interestRate; // Basis points (1% = 100)\n"
  ++ "    \x7d\n"
  ++ "    \n"
  ++ "    // Mapping from slot ID to tranche details\n"
  ++ "    mapping(uint256 => Tranche) private _tranches;\n"
  ++ "    \n"
  ++ "    // Mapping from token ID to slot ID\n"
  ++ "    mapping(uint256 => uint256) private _tokenSlots;\n"
  ++ "    \n"
  ++ "    // Mapping from token ID to value\n"
  ++ "    mapping(uint256 => uint256) private _tokenValues;\n"
  ++ "    \n"
  ++ "    // Issuance and maturity dates\n"
  ++ "    uint256 private _issuanceDate = "
  ++ (if f.metadata.issuanceDate ≠ "" then toString (dateToEpochSeconds f.metadata.issuanceDate)
      else "block.timestamp") ++ ";\n"
  ++ "    uint256 private _maturityDate = "
  ++ (if f.metadata.maturityDate ≠ "" then toString (dateToEpochSeconds f.metadata.maturityDate)
      else "block.timestamp + 157680000") ++ "; // Default: 5 years\n"
  ++ "    \n"
  ++ "    // Conversion rate to ERC-20\n"
  ++ "    uint256 private _conversionRate = "
  ++ ratStr (if f.metadata.conversionRate = 0 then 100 else f.metadata.conversionRate) ++ ";\n"
  ++ "    \n"
  ++ "    // Events\n"
  ++ "    event SlotCreated(uint256 indexed slotId, string name, uint256 value, uint256 interestRate);\n"
  ++ "    event TokenMinted(address indexed to, uint256 indexed tokenId, uint256 indexed slotId, uint256 value);\n"
  ++ "    \n"
  ++ "    constructor() ERC721(\"" ++ f.name ++ "\", \"" ++ f.symbol ++ "\") \x7b\n"
  ++ "        // Initialize tranches\n"

/-- The ERC-3525 header after the tranche statements: the remaining
functions of the fixed template. -/
def erc3525HeaderPost : String :=
  "\n"
  ++ "    \x7d\n"
  ++ "    \n"
  ++ "    function _createTranche(uint256 slotId, string memory name, uint256 value, uint256 interestRate) internal \x7b\n"
  ++ "        require(_tranches[slotId].slotId == 0, \"Tranche already exists\");\n"
  ++ "        _tranches[slotId] = Tranche(slotId, name, value, interestRate);\n"
  ++ "        emit SlotCreated(slotId, name, value, interestRate);\n"
  ++ "    \x7d\n"
  ++ "    \n"
  ++ "    function mintToken(address to, uint256 slotId, uint256 value) external onlyOwner \x7b\n"
  ++ "        require(_tranches[slotId].slotId != 0, \"Tranche does not exist\");\n"
  ++ "        require(value > 0, \"Value must be greater than 0\");\n"
  ++ "        \n"
  ++ "        uint256 tokenId = totalSupply() + 1;\n"
  ++ "        _mint(to, tokenId);\n"
  ++ "        _tokenSlots[tokenId] = slotId;\n"
  ++ "        _tokenValues[tokenId] = value;\n"
  ++ "        \n"
  ++ "        emit TokenMinted(to, tokenId, slotId, value);\n"
  ++ "    \x7d\n"
  ++ "    \n"
  ++ "    function getTokenSlot(uint256 tokenId) external view returns (uint256) \x7b\n"
  ++ "        require(_exists(tokenId), \"Token does not exist\");\n"
  ++ "        return _tokenSlots[tokenId];\n"
  ++ "    \x7d\n"
  ++ "    \n"
  ++ "    function getTokenValue(uint256 tokenId) external view returns (uint256) \x7b\n"
  ++ "        require(_exists(tokenId), \"Token does not exist\");\n"
  ++ "        return _tokenValues[tokenId];\n"
  ++ "    \x7d\n"
  ++ "    \n"
  ++ "    function getTrancheDetails(uint256 slotId) external view returns (string memory, uint256, uint256) \x7b\n"
  ++ "        require(_tranches[slotId].slotId != 0, \"Tranche does not exist\");\n"
  ++ "        Tranche memory tranche = _tranches[slotId];\n"
  ++ "        return (tranche.name, tranche.value, tranche.interestRate);\n"
  ++ "    \x7d\n"
  ++ "    \n"
  ++ "    function getMaturityDate() external view returns (uint256) \x7b\n"
  ++ "        return _maturityDate;\n"
  ++ "    \x7d\n"
  ++ "    \n"
  ++ "    function getIssuanceDate() external view returns (uint256) \x7b\n"
  ++ "        return _issuanceDate;\n"
  ++ "    \x7d\n"
  ++ "    \n"
  ++ "    function getConversionRate() external view returns (uint256) \x7b\n"
  ++ "        return _conversionRate;\n"
  ++ "    \x7d\n"

/-- The full ERC-3525 template header, with the tranche statements spliced
between its two fixed parts. -/
def erc3525Header (f : TokenForm) : String :=
  erc3525HeaderPre f ++ trancheInitSection f.metadata.tranches ++ erc3525HeaderPost

/-- Compliance-controls fragment of the ERC-3525 branch, appended when
`blocks.compliance.length > 0`; identical to the ERC-1400 one except for
the `tokenId` parameter of the transfer hook. -/
def erc3525ComplianceFragment (whitelistEnabled : Bool) : String :=
  "\n"
  ++ "    // Compliance Controls\n"
  ++ "    mapping(address => bool) private _whitelisted;\n"
  ++ "    "
  ++ (if whitelistEnabled then "bool private _whitelistEnabled = true;"
      else "bool private _whitelistEnabled = false;") ++ "\n"
  ++ "    \n"
  ++ "    function setWhitelistStatus(address account, bool status) external onlyOwner \x7b\n"
  ++ "        _whitelisted[account] = status;\n"
  ++ "    \x7d\n"
  ++ "    \n"
  ++ "    function setWhitelistEnabled(bool enabled) external onlyOwner \x7b\n"
  ++ "        _whitelistEnabled = enabled;\n"
  ++ "    \x7d\n"
  ++ "    \n"
  ++ "    function _beforeTokenTransfer(address from, address to, uint256 tokenId) internal override \x7b\n"
  ++ "        super._beforeTokenTransfer(from, to, tokenId);\n"
  ++ "        if (_whitelistEnabled) \x7b\n"
  ++ "            require(from == address(0) || _whitelisted[from], \"Sender not whitelisted\");\n"
  ++ "            require(to == address(0) || _whitelisted[to], \"Recipient not whitelisted\");\n"
  ++ "        \x7d\n"
  ++ "    \x7d\n"

/-- The `standard === "ERC-3525"` branch of `generateContractPreview`. -/
def erc3525Preview (f : TokenForm) : String :=
  erc3525Header f
  ++ (if f.blocks.compliance.length > 0 then
        erc3525ComplianceFragment f.metadata.whitelistEnabled
      else "")
  ++ "\x7d"

/-- `generateContractPreview`: the chained standard comparison of the
source.  Any standard other than ERC-20, ERC-1400 and ERC-3525 leaves the
`preview` variable at its initial empty string; no error is raised
anywhere in the function. -/
def generateContractPreview (f : TokenForm) : String :=
  if f.standard = "ERC-20" then erc20Preview f
  else if f.standard = "ERC-1400" then erc1400Preview f
  else if f.standard = "ERC-3525" then erc3525Preview f
  else ""

/-- Modelled from the spec: the `includedFragmentIds` metadata of a
`ContractDraft`.  The source function returns only the preview string, so
the ids here name the source's conditional fragments, listed in emission
order, in order to state the spec's claims about `includedFragmentIds`.
Each entry is present exactly when the source appends the corresponding
fragment. -/
def includedFragmentIds (f : TokenForm) : List String :=
  if f.standard = "ERC-20" then
    (if ("KYC") ∈ f.blocks.compliance then [("erc20-kyc")] else [])
    ++ (if ("Dividends") ∈ f.blocks.features then [("erc20-dividends")] else [])
  else if f.standard = "ERC-1400" then
    (if f.blocks.compliance.length > 0 then [("erc1400-compliance-controls")] else [])
    ++ (if f.metadata.jurisdictionRestrictions.length > 0 then
          [("erc1400-jurisdiction-restrictions")] else [])
  else if f.standard = "ERC-3525" then
    (if f.blocks.compliance.length > 0 then [("erc3525-compliance-controls")] else [])
  else []

/-- The reduce over tranche values used by the tranche-summary row. -/
def trancheValueSum (ts : List Tranche) : Int :=
  ts.foldl (fun sum t => sum + t.value) 0

/-- The boolean condition of the summary's ternaries: whether the tranche
values sum to `totalSupply`. -/
def trancheSumMatches (f : TokenForm) : Bool :=
  trancheValueSum f.metadata.tranches == f.totalSupply

/-- The colour class and label of the tranche-summary span; `none` when no
tranche exists (the summary block is not rendered then).  The check is a
purely cosmetic ternary: no exception and no blocking branch exists around
it. -/
def trancheSumSpan (f : TokenForm) : Option (String × String) :=
  if f.metadata.tranches.length > 0 then
    some
      ((if trancheValueSum f.metadata.tranches ≠ f.totalSupply then "text-red-500"
        else "text-green-500"),
       (if trancheValueSum f.metadata.tranches = f.totalSupply then " Matches total supply"
        else " Doesn\x27t match total supply (" ++ jsLocaleString f.totalSupply ++ ")"))
  else none

/-- The validation gate at the top of `saveToken`: saving proceeds exactly
when name, symbol and standard are all non-empty strings (JavaScript
truthiness); nothing else is validated before persisting. -/
def saveTokenValidationPasses (f : TokenForm) : Bool :=
  !(f.name == "") && !(f.symbol == "") && !(f.standard == "")

/-- A form with the given tranche list and total supply substituted,
everything else unchanged; used to state that the save gate ignores the
tranche-sum comparison. -/
def withTranchesAndSupply (f : TokenForm) (ts : List Tranche) (n : Int) : TokenForm :=
  { f with totalSupply := n, metadata := { f.metadata with tranches := ts } }

/-- The three building-block groups of the form. -/
inductive BlockGroup
  | compliance
  | features
  | governance

/-- Adding one building-block name to one group, as `handleBlockToggle`
does when the block is not yet present: the name is appended at the end of
that group's array; everything else is unchanged. -/
def addBlock (g : BlockGroup) (b : String) (f : TokenForm) : TokenForm :=
  match g with
  | BlockGroup.compliance =>
    { f with blocks := { f.blocks with compliance := f.blocks.compliance ++ [b] } }
  | BlockGroup.features =>
    { f with blocks := { f.blocks with features := f.blocks.features ++ [b] } }
  | BlockGroup.governance =>
    { f with blocks := { f.blocks with governance := f.blocks.governance ++ [b] } }

/-- Modelled from the spec: `toBasisPoints(percentValue)` is
`round(percentValue × 100)` with half-up tie-break.  The comparison target
for the conversion the source actually performs. -/
def toBasisPointsHalfUp (r : Rat) : Int :=
  ⌊r * 100 + 1 / 2⌋

/-- Modelled from the spec: an identifier character (letter, digit,
underscore or dollar); the sanitisation claim asserts all other characters
are removed. -/
def specIdentChar (c : Char) : Bool :=
  c.isAlphanum || c == '_' || c == '$'

/-- Empty metadata, i.e. the initial form metadata. -/
def emptyMetadata : TokenMetadata :=
  { description := "", category := "", product := "", issuanceDate := "",
    maturityDate := "", tranches := [], whitelistEnabled := true,
    jurisdictionRestrictions := [], conversionRate := 0 }

/-- A base sample form: the initial form state with a name and symbol. -/
def baseForm : TokenForm :=
  { name := "Token", symbol := "TKN", decimals := 18, standard := "ERC-20",
    totalSupply := 1000000,
    blocks := { compliance := [], features := [], governance := [] },
    metadata := emptyMetadata }

/-- A form whose standard is outside the enumerated set. -/
def erc9999Form : TokenForm :=
  { baseForm with standard := "ERC-9999" }

/-- An ERC-721 form (a supported standard of the UI list). -/
def erc721Form : TokenForm :=
  { baseForm with standard := "ERC-721" }

/-- An ERC-1400 form with all block sets empty but one jurisdiction
restriction selected. -/
def erc1400JurForm : TokenForm :=
  { baseForm with
    standard := "ERC-1400",
    metadata := { emptyMetadata with jurisdictionRestrictions := ["US"] } }

/-- Sample tranches mirroring the structured-product defaults. -/
def trancheA : Tranche :=
  { id := 1, name := "A", value := 700000, interestRate := 3 }

/-- Second sample tranche. -/
def trancheB : Tranche :=
  { id := 2, name := "B", value := 200000, interestRate := 5 }

/-- Two tranches that share the id `2`. -/
def trancheX : Tranche :=
  { id := 2, name := "X", value := 500000, interestRate := 3 }

/-- Second tranche with the duplicated id `2`. -/
def trancheY : Tranche :=
  { id := 2, name := "Y", value := 500000, interestRate := 5 }

/-- An ERC-3525 form with the given tranche list. -/
def erc3525Form (ts : List Tranche) : TokenForm :=
  { baseForm with
    standard := "ERC-3525",
    decimals := 0,
    metadata := { emptyMetadata with tranches := ts, conversionRate := 100 } }

/-- ERC-3525 form with two tranches sharing id 2. -/
def formDupIds : TokenForm :=
  erc3525Form [trancheX, trancheY]

/-- ERC-3525 form with tranches listed in id order 1, 2. -/
def formOrd12 : TokenForm :=
  erc3525Form [trancheA, trancheB]

/-- ERC-3525 form with the same two tranches listed in order 2, 1. -/
def formOrd21 : TokenForm :=
  erc3525Form [trancheB, trancheA]

/-- An ERC-20 form with the KYC compliance block selected. -/
def kycForm : TokenForm :=
  { baseForm with
    blocks := { compliance := ["KYC"], features := [], governance := [] } }

/-- ERC-3525 form whose tranche values sum to its total supply. -/
def formSumMatch : TokenForm :=
  { erc3525Form [trancheA, trancheB] with totalSupply := 900000 }

/-- ERC-3525 form whose tranche values fall short of its total supply. -/
def formSumMismatch : TokenForm :=
  erc3525Form [trancheA, trancheB]

theorem string_data_append (a b : String) : (a ++ b).data = a.data ++ b.data := rfl

theorem infix_extend_left {α : Type} {l m : List α} (p : List α) (h : l <:+: m) :
    l <:+: p ++ m := by
  obtain ⟨s, t, rfl⟩ := h
  exact ⟨p ++ s, t, by simp⟩

theorem infix_extend_right {α : Type} {l m : List α} (p : List α) (h : l <:+: m) :
    l <:+: m ++ p := by
  obtain ⟨s, t, rfl⟩ := h
  exact ⟨s, t ++ p, by simp⟩

theorem mem_infix_joinWith (sep : String) :
    ∀ (l : List String), ∀ x ∈ l, x.data <:+: (joinWith sep l).data := by
  intro l
  induction l with
  | nil => intro x hx; cases hx
  | cons a rest ih =>
    intro x hx
    rcases List.mem_cons.mp hx with hxa | hxr
    · subst hxa
      cases rest with
      | nil => exact ⟨[], [], by simp [joinWith]⟩
      | cons b t =>
        refine ⟨[], (sep ++ joinWith sep (b :: t)).data, ?_⟩
        simp [joinWith, string_data_append]
    · cases rest with
      | nil => cases hxr
      | cons b t =>
        have h1 := ih x hxr
        have h3 : (joinWith sep (a :: b :: t)).data
            = ((a ++ sep).data) ++ (joinWith sep (b :: t)).data := by
          simp [joinWith, string_data_append]
        rw [h3]
        exact infix_extend_left _ h1

/-- Shape of the generated text for an ERC-3525 form: the fixed prefix,
the joined tranche statements, the fixed remainder, the optional
compliance fragment and the closing brace. -/
theorem erc3525_structure (f : TokenForm) (h : f.standard = "ERC-3525") :
    generateContractPreview f =
      erc3525HeaderPre f ++ trancheInitSection f.metadata.tranches ++ erc3525HeaderPost
      ++ (if f.blocks.compliance.length > 0 then
            erc3525ComplianceFragment f.metadata.whitelistEnabled
          else "")
      ++ "\x7d" := by
  simp [generateContractPreview, h, erc3525Preview, erc3525Header]

/-- C1: the specification claims a standard outside the enumerated set
fails the generation call with `UnsupportedStandardKind`.  The source has
no error path: the amended claim proved here is that for every form whose
standard is none of ERC-20, ERC-1400 and ERC-3525 the generator returns
normally with the empty string, so in particular no partial draft. -/
theorem claim1_unknown_standard_yields_empty (f : TokenForm)
    (h : f.standard ∉ (["ERC-20", "ERC-1400", "ERC-3525"] : List String)) :
    generateContractPreview f = "" := by
  have h1 : ¬ f.standard = "ERC-20" := fun hh => h (by simp [hh])
  have h2 : ¬ f.standard = "ERC-1400" := fun hh => h (by simp [hh])
  have h3 : ¬ f.standard = "ERC-3525" := fun hh => h (by simp [hh])
  simp [generateContractPreview, h1, h2, h3]

/-- C1 witness: the amended claim at the concrete standard "ERC-9999". -/
theorem claim1_witness :
    erc9999Form.standard ∉ (["ERC-20", "ERC-1400", "ERC-3525"] : List String)
    ∧ generateContractPreview erc9999Form = "" :=
  ⟨by decide, claim1_unknown_standard_yields_empty erc9999Form (by decide)⟩

/-- C1 counterexample: at `standard = "ERC-9999"` the generation call
returns normally with the empty string; no `UnsupportedStandardKind`
failure exists in the code. -/
theorem claim1_counterexample :
    erc9999Form.standard = "ERC-9999" ∧ generateContractPreview erc9999Form = "" :=
  ⟨rfl, by decide⟩

/-- C3: determinism — the generator and the fragment-id computation are
pure functions of the specification value: byte-identical input yields
byte-identical full text and identical `includedFragmentIds`.  The source
reads nothing besides its argument: no clock, no randomness, no external
state enters the computation. -/
theorem claim3_deterministic (f g : TokenForm) (h : f = g) :
    generateContractPreview f = generateContractPreview g
    ∧ includedFragmentIds f = includedFragmentIds g := by
  subst h
  exact ⟨rfl, rfl⟩

/-- C3 witness: the determinism contract at a concrete form. -/
theorem claim3_witness :
    generateContractPreview baseForm = generateContractPreview baseForm
    ∧ includedFragmentIds baseForm = includedFragmentIds baseForm :=
  claim3_deterministic baseForm baseForm rfl

/-- C10: for the standards ERC-721, ERC-1155 and ERC-4626 — all members of
the supported-standards list offered to the user — the generator returns
the empty string: no skeleton, no fragments and no error. -/
theorem claim10_ui_standards_empty_preview (f : TokenForm)
    (h : f.standard = "ERC-721" ∨ f.standard = "ERC-1155" ∨ f.standard = "ERC-4626") :
    f.standard ∈ tokenStandardValues ∧ generateContractPreview f = "" := by
  rcases h with h | h | h <;>
    exact ⟨by rw [h]; decide, by simp [generateContractPreview, h]⟩

/-- C10 witness: the claim at a concrete ERC-721 form. -/
theorem claim10_witness :
    erc721Form.standard ∈ tokenStandardValues
    ∧ generateContractPreview erc721Form = "" :=
  claim10_ui_standards_empty_preview erc721Form (Or.inl rfl)

/-- C4 (amended): with all three block sets empty, generation succeeds for
every handled standard and — provided, for ERC-1400, that no jurisdiction
restriction is selected — the full text is the skeleton header followed by
the closing brace, with no body fragments.  The original claim fails
because the jurisdiction-restrictions fragment is gated on the metadata,
not on the block sets. -/
theorem claim4_empty_blocks_skeleton (f : TokenForm)
    (hc : f.blocks.compliance = []) (hf : f.blocks.features = [])
    (_hg : f.blocks.governance = []) :
    (f.standard = "ERC-20" → generateContractPreview f = erc20Header f ++ "\x7d")
    ∧ (f.standard = "ERC-1400" → f.metadata.jurisdictionRestrictions = [] →
        generateContractPreview f = erc1400Header f ++ "\x7d")
    ∧ (f.standard = "ERC-3525" → generateContractPreview f = erc3525Header f ++ "\x7d") := by
  refine ⟨fun h => ?_, fun h hj => ?_, fun h => ?_⟩
  · simp [generateContractPreview, h, erc20Preview, hc, hf]
  · simp [generateContractPreview, h, erc1400Preview, hc, hj]
  · simp [generateContractPreview, h, erc3525Preview, hc]

/-- C4 witness: the skeleton-only result at the initial form state, whose
block sets are all empty. -/
theorem claim4_witness :
    baseForm.blocks.compliance = []
    ∧ ((baseForm.standard = "ERC-20" →
          generateContractPreview baseForm = erc20Header baseForm ++ "\x7d")
       ∧ (baseForm.standard = "ERC-1400" →
          baseForm.metadata.jurisdictionRestrictions = [] →
          generateContractPreview baseForm = erc1400Header baseForm ++ "\x7d")
       ∧ (baseForm.standard = "ERC-3525" →
          generateContractPreview baseForm = erc3525Header baseForm ++ "\x7d")) :=
  ⟨rfl, claim4_empty_blocks_skeleton baseForm rfl rfl rfl⟩

/-- C4 counterexample: an ERC-1400 form with all three block sets empty
but one jurisdiction restriction selected emits the jurisdiction fragment,
so the full text is strictly more than header plus footer. -/
theorem claim4_counterexample :
    erc1400JurForm.blocks.compliance = []
    ∧ erc1400JurForm.blocks.features = []
    ∧ erc1400JurForm.blocks.governance = []
    ∧ generateContractPreview erc1400JurForm
        = erc1400Header erc1400JurForm ++ jurisdictionFragment (["US"]) ++ "\x7d"
    ∧ generateContractPreview erc1400JurForm ≠ erc1400Header erc1400JurForm ++ "\x7d" := by
  refine ⟨rfl, rfl, rfl, by decide, by decide⟩

/-- C5: the tranche-sum check is a soft warning: its condition holds
exactly when the tranche values sum to `totalSupply`; a match shows the
green "Matches" span and a mismatch only switches the span to the red
label; and the save gate is insensitive to the tranche list and the total
supply, so saving (and generation, which consults neither) is never
blocked by a mismatch. -/
theorem claim5_sum_check_soft (f : TokenForm) (ts : List Tranche) (n : Int) :
    (trancheSumMatches f = true ↔ trancheValueSum f.metadata.tranches = f.totalSupply)
    ∧ (f.metadata.tranches.length > 0 →
        trancheValueSum f.metadata.tranches = f.totalSupply →
        trancheSumSpan f = some (("text-green-500"), (" Matches total supply")))
    ∧ (f.metadata.tranches.length > 0 →
        trancheValueSum f.metadata.tranches ≠ f.totalSupply →
        trancheSumSpan f = some (("text-red-500"),
          (" Doesn\x27t match total supply (" ++ jsLocaleString f.totalSupply ++ ")")))
    ∧ saveTokenValidationPasses (withTranchesAndSupply f ts n) = saveTokenValidationPasses f := by
  refine ⟨?_, fun h1 h2 => ?_, fun h1 h2 => ?_, rfl⟩
  · simp [trancheSumMatches]
  · simp [trancheSumSpan, h1, h2]
  · simp [trancheSumSpan, h1, h2]

/-- C5 witness: a matching sum shows the green span, a mismatching sum the
red one, at concrete forms. -/
theorem claim5_witness :
    trancheSumSpan formSumMatch = some (("text-green-500"), (" Matches total supply"))
    ∧ trancheSumSpan formSumMismatch = some (("text-red-500"),
        (" Doesn\x27t match total supply ("
          ++ jsLocaleString formSumMismatch.totalSupply ++ ")")) :=
  ⟨(claim5_sum_check_soft formSumMatch [] 0).2.1 (by decide) (by decide),
   (claim5_sum_check_soft formSumMismatch [] 0).2.2.1 (by decide) (by decide)⟩

/-- C6: monotonic inclusion — appending one building-block name to any one
of the three block sets, leaving the standard and every other field
unchanged, yields an included-fragment list that contains every fragment
id of the original one. -/
theorem claim6_monotonic_inclusion (f : TokenForm) (g : BlockGroup) (b : String) :
    includedFragmentIds f ⊆ includedFragmentIds (addBlock g b f) := by
  cases g <;>
    · simp only [includedFragmentIds, addBlock]
      split_ifs <;> simp_all [List.subset_def, List.mem_append]

/-- C6 witness: the inclusion at a concrete form and block addition. -/
theorem claim6_witness :
    includedFragmentIds kycForm
      ⊆ includedFragmentIds (addBlock BlockGroup.features ("Dividends") kycForm) :=
  claim6_monotonic_inclusion kycForm BlockGroup.features ("Dividends")

/-- Rendering an integral basis-points number prints its integer
numeral. -/
theorem ratStr_intCast (n : Int) : ratStr ((n : Rat)) = toString n := by
  simp [ratStr]

/-- Concrete rendering of the sample tranche with id 1. -/
theorem renderTrancheStmt_A :
    renderTrancheStmt trancheA = "        _createTranche(1, \"A\", 700000, 300);" := by
  rw [renderTrancheStmt,
    show interestRateTimes100 trancheA.interestRate = ((300 : Int) : Rat) by
      norm_num [interestRateTimes100, trancheA],
    ratStr_intCast]
  decide

/-- Concrete rendering of the sample tranche with id 2. -/
theorem renderTrancheStmt_B :
    renderTrancheStmt trancheB = "        _createTranche(2, \"B\", 200000, 500);" := by
  rw [renderTrancheStmt,
    show interestRateTimes100 trancheB.interestRate = ((500 : Int) : Rat) by
      norm_num [interestRateTimes100, trancheB],
    ratStr_intCast]
  decide

/-- Concrete rendering of the first duplicate-id tranche. -/
theorem renderTrancheStmt_X :
    renderTrancheStmt trancheX = "        _createTranche(2, \"X\", 500000, 300);" := by
  rw [renderTrancheStmt,
    show interestRateTimes100 trancheX.interestRate = ((300 : Int) : Rat) by
      norm_num [interestRateTimes100, trancheX],
    ratStr_intCast]
  decide

/-- Concrete rendering of the second duplicate-id tranche. -/
theorem renderTrancheStmt_Y :
    renderTrancheStmt trancheY = "        _createTranche(2, \"Y\", 500000, 500);" := by
  rw [renderTrancheStmt,
    show interestRateTimes100 trancheY.interestRate = ((500 : Int) : Rat) by
      norm_num [interestRateTimes100, trancheY],
    ratStr_intCast]
  decide

/-- The joined section for the duplicate-id form. -/
theorem trancheSection_dup :
    trancheInitSection formDupIds.metadata.tranches
      = "        _createTranche(2, \"X\", 500000, 300);\n        _createTranche(2, \"Y\", 500000, 500);" := by
  show trancheInitSection [trancheX, trancheY] = _
  rw [trancheInitSection, List.map_cons, List.map_cons, List.map_nil,
    renderTrancheStmt_X, renderTrancheStmt_Y]
  decide

/-- The joined section for the form listing tranche 2 before tranche 1. -/
theorem trancheSection_ord21 :
    trancheInitSection formOrd21.metadata.tranches
      = "        _createTranche(2, \"B\", 200000, 500);\n        _createTranche(1, \"A\", 700000, 300);" := by
  show trancheInitSection [trancheB, trancheA] = _
  rw [trancheInitSection, List.map_cons, List.map_cons, List.map_nil,
    renderTrancheStmt_B, renderTrancheStmt_A]
  decide

/-- The joined section for the form listing tranche 1 before tranche 2. -/
theorem trancheSection_ord12 :
    trancheInitSection formOrd12.metadata.tranches
      = "        _createTranche(1, \"A\", 700000, 300);\n        _createTranche(2, \"B\", 200000, 500);" := by
  show trancheInitSection [trancheA, trancheB] = _
  rw [trancheInitSection, List.map_cons, List.map_cons, List.map_nil,
    renderTrancheStmt_A, renderTrancheStmt_B]
  decide

/-- Shape of the generated text for an ERC-3525 form without compliance
blocks: prefix, tranche statements, fixed remainder, closing brace. -/
theorem gen_erc3525_no_compliance (f : TokenForm) (h : f.standard = "ERC-3525")
    (hc : f.blocks.compliance = []) :
    generateContractPreview f
      = erc3525HeaderPre f ++ trancheInitSection f.metadata.tranches
        ++ erc3525HeaderPost ++ "\x7d" := by
  rw [erc3525_structure f h, hc]
  simp

/-- C2 (amended): the source performs no duplicate-id validation: for
every ERC-3525 form — tranche ids distinct or not — generation succeeds,
one initialization statement is rendered per tranche, and each tranche's
statement occurs verbatim inside the generated text.  The only duplicate
guard is the `require` statement inside the emitted text. -/
theorem claim2_no_duplicate_validation (f : TokenForm) (h : f.standard = "ERC-3525") :
    (f.metadata.tranches.map renderTrancheStmt).length = f.metadata.tranches.length
    ∧ ∀ t ∈ f.metadata.tranches,
        (renderTrancheStmt t).data <:+: (generateContractPreview f).data := by
  refine ⟨by simp, fun t ht => ?_⟩
  have h1 : (renderTrancheStmt t).data <:+: (trancheInitSection f.metadata.tranches).data :=
    mem_infix_joinWith _ _ _ (List.mem_map_of_mem _ ht)
  rw [erc3525_structure f h, string_data_append, string_data_append,
    string_data_append, string_data_append]
  exact infix_extend_right _ (infix_extend_right _ (infix_extend_right _
    (infix_extend_left _ h1)))

/-- C2 witness: with two tranches both carrying id 2, the second
duplicate's statement still occurs in the generated text. -/
theorem claim2_witness :
    formDupIds.standard = "ERC-3525"
    ∧ (renderTrancheStmt trancheY).data <:+: (generateContractPreview formDupIds).data :=
  ⟨rfl, (claim2_no_duplicate_validation formDupIds rfl).2 trancheY
    (List.mem_cons_of_mem _ (List.mem_cons_self _ _))⟩

/-- C2 counterexample: with two tranches both carrying id 2, both
initialization statements are rendered — tranche text IS emitted and no
`DuplicateTrancheIdError` is raised (the generator returns a non-empty
draft). -/
theorem claim2_counterexample :
    trancheInitSection formDupIds.metadata.tranches
      = "        _createTranche(2, \"X\", 500000, 300);\n        _createTranche(2, \"Y\", 500000, 500);"
    ∧ generateContractPreview formDupIds ≠ "" := by
  refine ⟨trancheSection_dup, fun h0 => ?_⟩
  rw [gen_erc3525_no_compliance formDupIds rfl rfl] at h0
  have hd := congrArg String.data h0
  rw [string_data_append] at hd
  exact absurd (List.append_eq_nil.mp hd).2 (by decide)

/-- C7 (amended): one initialization statement per tranche is emitted with
the tranche's id as slot key, in input list order — not sorted by id: the
joined section is the map over the list in order, occurs verbatim in the
generated text, and statements follow ids 1, 2, 3 only when the list is
already in that order. -/
theorem claim7_tranche_list_order (f : TokenForm) (h : f.standard = "ERC-3525") :
    trancheInitSection f.metadata.tranches
      = joinWith ("\n") (f.metadata.tranches.map renderTrancheStmt)
    ∧ (trancheInitSection f.metadata.tranches).data <:+: (generateContractPreview f).data := by
  refine ⟨rfl, ?_⟩
  rw [erc3525_structure f h, string_data_append, string_data_append,
    string_data_append, string_data_append]
  exact infix_extend_right _ (infix_extend_right _ (infix_extend_right _
    (infix_extend_left _ (List.infix_refl _))))

/-- C7 witness: the list-order rendering at a concrete form whose tranche
list is in the order 2, 1. -/
theorem claim7_witness :
    formOrd21.standard = "ERC-3525"
    ∧ (trancheInitSection formOrd21.metadata.tranches).data
        <:+: (generateContractPreview formOrd21).data :=
  ⟨rfl, (claim7_tranche_list_order formOrd21 rfl).2⟩

/-- C7 counterexample: the same two tranches listed in order 2, 1 render
their statements in order 2, 1 — not in id order — and the generated text
differs from the one for input order 1, 2, refuting the claimed
order-independence. -/
theorem claim7_counterexample :
    trancheInitSection formOrd21.metadata.tranches
      = "        _createTranche(2, \"B\", 200000, 500);\n        _createTranche(1, \"A\", 700000, 300);"
    ∧ generateContractPreview formOrd21 ≠ generateContractPreview formOrd12 := by
  refine ⟨trancheSection_ord21, fun heq => ?_⟩
  rw [gen_erc3525_no_compliance formOrd21 rfl rfl,
    gen_erc3525_no_compliance formOrd12 rfl rfl] at heq
  have hpre : erc3525HeaderPre formOrd21 = erc3525HeaderPre formOrd12 := rfl
  rw [hpre, trancheSection_ord21, trancheSection_ord12] at heq
  have hd := congrArg String.data heq
  simp only [string_data_append, List.append_assoc] at hd
  exact absurd (List.append_cancel_right (List.append_cancel_left hd)) (by decide)

/-- C8 (amended): the source converts a percentage to the rendered
basis-points figure by plain multiplication with 100, with no rounding;
whenever `interestRate * 100` is integral — the only case in which an
integer reaches the rendered statement — it coincides with the spec's
half-up rounding. -/
theorem claim8_bp_no_rounding (r : Rat) (m : Int)
    (h : interestRateTimes100 r = (m : Rat)) :
    interestRateTimes100 r = (toBasisPointsHalfUp r : Rat) := by
  have hfloor : toBasisPointsHalfUp r = m := by
    rw [toBasisPointsHalfUp, show r * 100 = (m : Rat) from h, Int.floor_int_add]
    norm_num
  rw [hfloor]
  exact h

/-- C8 witness: at the integral rate 3 percent the rendered value 300
agrees with half-up rounding. -/
theorem claim8_witness :
    interestRateTimes100 (3 : Rat) = ((300 : Int) : Rat)
    ∧ interestRateTimes100 (3 : Rat) = (toBasisPointsHalfUp (3 : Rat) : Rat) :=
  ⟨by norm_num [interestRateTimes100],
   claim8_bp_no_rounding (3 : Rat) 300 (by norm_num [interestRateTimes100])⟩

/-- C8 counterexample: at rate 25/8 (= 3.125, an exact double) the value
that reaches the rendered tranche statement is 312.5 — not an integer at
all — and differs from the claimed half-up rounding 313. -/
theorem claim8_counterexample :
    interestRateTimes100 (25 / 8 : Rat) = (625 / 2 : Rat)
    ∧ (¬ ∃ m : Int, interestRateTimes100 (25 / 8 : Rat) = (m : Rat))
    ∧ toBasisPointsHalfUp (25 / 8 : Rat) = 313
    ∧ interestRateTimes100 (25 / 8 : Rat) ≠ (toBasisPointsHalfUp (25 / 8 : Rat) : Rat) := by
  have hval : interestRateTimes100 (25 / 8 : Rat) = (625 / 2 : Rat) := by
    norm_num [interestRateTimes100]
  have hfloor : toBasisPointsHalfUp (25 / 8 : Rat) = 313 := by
    rw [toBasisPointsHalfUp,
      show (25 / 8 * 100 + 1 / 2 : Rat) = ((313 : Int) : Rat) by norm_num]
    simp
  refine ⟨hval, ?_, hfloor, ?_⟩
  · rintro ⟨m, hm⟩
    have h1 : (625 / 2 : Rat) = (m : Rat) := by rw [← hm]; exact hval.symm
    have h2 : (m : Rat) * 2 = 625 := by rw [← h1]; norm_num
    have h3 : m * 2 = 625 := by exact_mod_cast h2
    omega
  · rw [hval, hfloor]
    norm_num

/-- C9 (amended): the sanitisation removes exactly the whitespace
characters: the output contains no whitespace, every non-whitespace
character of the input is kept, and "Credit Linked Note 2025" renders to
the contiguous identifier "CreditLinkedNote2025".  Non-identifier
characters that are not whitespace are not removed, which refutes the
original claim's stronger wording. -/
theorem claim9_sanitize_whitespace_only (s : String) :
    removeWhitespace ("Credit Linked Note 2025") = "CreditLinkedNote2025"
    ∧ (∀ c ∈ (removeWhitespace s).data, isJsWhitespace c = false)
    ∧ (∀ c ∈ s.data, isJsWhitespace c = false → c ∈ (removeWhitespace s).data) := by
  refine ⟨by decide, fun c hc => ?_, fun c hc h => ?_⟩
  · simp only [removeWhitespace] at hc
    have h2 := (List.mem_filter.mp hc).2
    simpa using h2
  · simp only [removeWhitespace]
    exact List.mem_filter.mpr ⟨hc, by simp [h]⟩

/-- C9 witness: the sanitised sample name. -/
theorem claim9_witness :
    removeWhitespace ("Credit Linked Note 2025") = "CreditLinkedNote2025" :=
  (claim9_sanitize_whitespace_only ("Credit Linked Note 2025")).1

/-- C9 counterexample: the hyphen — not an identifier character — survives
sanitisation, refuting "removes whitespace and non-identifier
characters". -/
theorem claim9_counterexample :
    removeWhitespace ("Credit-Linked Note 2025") = "Credit-LinkedNote2025"
    ∧ ('-' ∈ (removeWhitespace ("Credit-Linked Note 2025")).data)
    ∧ specIdentChar '-' = false := by
  exact ⟨by decide, by decide, by decide⟩

end CapTable
